import Mathlib

/-!
Shallow embedding of `pkg/broker/ensure.go` (package `broker`) from the
submariner-operator repository, together with proofs of the specified
properties of its provisioning logic.

The control plane (the Kubernetes API reached through `kubeClient`) is an
external collaborator; we model it as a record of operation outcomes
(`Client`).  Each modelled function returns the list of control-plane
requests it issued (its trace, in order) alongside its Go return values.
Errors are modelled by an inductive `KError`; `apierrors.IsAlreadyExists`
becomes the `KError.isAlreadyExists` predicate and `errors.Wrap msg err`
becomes the `KError.wrapped msg err` constructor.
-/

namespace Broker

/-- Model of a Go `error` value as observed by this package:
`alreadyExists` is an error for which `apierrors.IsAlreadyExists` holds,
`notFound` one for which it does not (e.g. a secret not yet materialized),
`other` any further control-plane failure, and `wrapped msg e` is the
result of `errors.Wrap(e, msg)`. -/
inductive KError where
  | alreadyExists
  | notFound
  | other (msg : String)
  | wrapped (msg : String) (cause : KError)
deriving DecidableEq, Repr

/-- `apierrors.IsAlreadyExists`: true exactly on an "already exists"
status error coming from the control plane. -/
def KError.isAlreadyExists : KError → Bool
  | .alreadyExists => true
  | _ => false

/-- Model of a `v1.Secret` returned by the credential lookup. -/
structure Secret where
  token : String
deriving DecidableEq, Repr

/-- One request issued against the control plane, recorded in order: this
is the observable effect trace of the provisioning functions. -/
inductive Step where
  | schemaInstall (tag : String)
  | createNamespace (ns : String)
  | createSA (name : String)
  | createOrUpdateRole (name : String)
  | createRoleBinding (sa role : String)
  | waitForToken (sa : String)
deriving DecidableEq, Repr

/-- The external control plane: the outcome of each request this package
can issue.  `none` means the request succeeded; `some e` that it failed
with error `e`.  `getSecret ns sa i` is the outcome of the `i`-th
credential lookup for service account `sa` in namespace `ns` (the control
plane materializes tokens asynchronously, so outcomes vary over time). -/
structure Client where
  createNamespace : String → Option KError
  createSA : String → String → Option KError
  createOrUpdateRole : String → String → Option KError
  createRoleBinding : String → String → String → Option KError
  getSecret : String → String → Nat → Except KError Secret
  gatewayEnsure : Option KError
  lighthouseEnsure : Option KError

/-- Modelled from the spec: the fixed, well-known administrator identity
name (`constants.SubmarinerBrokerAdminSA`; the `internal/constants`
package is outside this fragment). -/
def SubmarinerBrokerAdminSA : String := "submariner-k8s-broker-admin"

/-- Modelled from the spec: the fixed default cluster identity name
(`submarinerBrokerClusterDefaultSA`, declared in a sibling file of the
`broker` package not part of this fragment). -/
def submarinerBrokerClusterDefaultSA : String := "submariner-k8s-broker-client"

/-- Modelled from the spec: the fixed cluster role name
(`submarinerBrokerClusterRole`, declared in a sibling file of the
`broker` package not part of this fragment). -/
def submarinerBrokerClusterRole : String := "submariner-k8s-broker-cluster"

/-- Modelled from the spec: the fixed administrator role name
(`submarinerBrokerAdminRole`, declared in a sibling file of the
`broker` package not part of this fragment). -/
def submarinerBrokerAdminRole : String := "submariner-k8s-broker-admin-role"

/-- Modelled from the spec: `ClusterSAName` (declared in a sibling file of
the `broker` package not part of this fragment) derives the per-cluster
identity name as a pure function of the cluster identifier, by prefixing
it with a fixed literal. -/
def ClusterSAName (clusterID : String) : String :=
  "cluster-" ++ clusterID

/-- Modelled from the spec: the capability tag for connectivity
(`component.Connectivity` from `internal/component`, outside this
fragment). -/
def Connectivity : String := "connectivity"

/-- Modelled from the spec: the capability tag for service discovery
(`component.ServiceDiscovery`). -/
def ServiceDiscovery : String := "service-discovery"

/-- Modelled from the spec: the capability tag for globalnet
(`component.Globalnet`). -/
def Globalnet : String := "globalnet"

/-- The guard pattern `if err != nil && !apierrors.IsAlreadyExists(err)
\x7b return errors.Wrap(err, msg) \x7d` used at every plain-create step:
absorbs success and "already exists", wraps anything else. -/
def stepErr (msg : String) : Option KError → Option KError
  | none => none
  | some e => if e.isAlreadyExists then none else some (KError.wrapped msg e)

/-- Result of `WaitForClientToken`: the two Go return values together with
the number of lookup attempts that were performed. -/
structure WaitOutcome where
  secret : Option Secret
  err : Option KError
  attempts : Nat
deriving DecidableEq, Repr

/-- The retry loop of `wait.ExponentialBackoff` as instantiated in
`WaitForClientToken`: `fuel` is the number of remaining steps, `idx` the
index of the next attempt, `lastErr` the outer-scoped `lastErr` variable.
The condition function performs the lookup; on failure it stores the
error in `lastErr` and asks for a retry.  When the steps are exhausted,
`ExponentialBackoff` returns `wait.ErrWaitTimeout` and the function
returns `(nil, lastErr)`; on a successful attempt it returns the observed
secret with a nil error at once. -/
def waitLoop (lookup : Nat → Except KError Secret) :
    Nat → Nat → Option KError → WaitOutcome
  | 0, _, lastErr => ⟨none, lastErr, 0⟩
  | fuel + 1, idx, _ =>
    match lookup idx with
    | .ok s => ⟨some s, none, 1⟩
    | .error e =>
      let r := waitLoop lookup fuel (idx + 1) (some e)
      ⟨r.secret, r.err, r.attempts + 1⟩

/-- `WaitForClientToken`: polls `rbac.GetClientTokenSecret` under a
backoff of `Steps: 10`. -/
def WaitForClientToken (c : Client) (submarinerBrokerSA ns : String) :
    WaitOutcome :=
  waitLoop (c.getSecret ns submarinerBrokerSA) 10 0 none

/-- The `if crds` loop of `Ensure`: a `switch` over each entry of
`componentArr`.  `component.Connectivity` runs `gateway.Ensure`;
`component.ServiceDiscovery` and `component.Globalnet` each run
`lighthouse.Ensure`; any other tag matches no `case` and is skipped.  A
failing installer aborts the loop with a wrapped error naming the
capability. -/
def ensureComponents (c : Client) : List String → List Step × Option KError
  | [] => ([], none)
  | tag :: rest =>
    if tag = Connectivity then
      match c.gatewayEnsure with
      | some e =>
        ([Step.schemaInstall tag],
          some (.wrapped "error setting up the connectivity requirements" e))
      | none =>
        let r := ensureComponents c rest
        (Step.schemaInstall tag :: r.1, r.2)
    else if tag = ServiceDiscovery then
      match c.lighthouseEnsure with
      | some e =>
        ([Step.schemaInstall tag],
          some (.wrapped "error setting up the service discovery requirements" e))
      | none =>
        let r := ensureComponents c rest
        (Step.schemaInstall tag :: r.1, r.2)
    else if tag = Globalnet then
      match c.lighthouseEnsure with
      | some e =>
        ([Step.schemaInstall tag],
          some (.wrapped "error setting up the globalnet requirements" e))
      | none =>
        let r := ensureComponents c rest
        (Step.schemaInstall tag :: r.1, r.2)
    else
      ensureComponents c rest

/-- `createBrokerAdministratorRoleAndSA`: admin service account (ignore
"already exists"), then `CreateOrUpdateBrokerAdminRole` — whose error is
propagated unconditionally — then the admin role binding (ignore
"already exists"). -/
def createBrokerAdministratorRoleAndSA (c : Client) (ns : String) :
    List Step × Option KError :=
  match stepErr "error creating the broker admin service account"
      (c.createSA ns SubmarinerBrokerAdminSA) with
  | some e => ([Step.createSA SubmarinerBrokerAdminSA], some e)
  | none =>
    match c.createOrUpdateRole ns submarinerBrokerAdminRole with
    | some e =>
      ([Step.createSA SubmarinerBrokerAdminSA,
        Step.createOrUpdateRole submarinerBrokerAdminRole],
        some (.wrapped "error creating subctl role" e))
    | none =>
      match stepErr "error creating the broker rolebinding"
          (c.createRoleBinding ns SubmarinerBrokerAdminSA submarinerBrokerAdminRole) with
      | some e =>
        ([Step.createSA SubmarinerBrokerAdminSA,
          Step.createOrUpdateRole submarinerBrokerAdminRole,
          Step.createRoleBinding SubmarinerBrokerAdminSA submarinerBrokerAdminRole],
          some e)
      | none =>
        ([Step.createSA SubmarinerBrokerAdminSA,
          Step.createOrUpdateRole submarinerBrokerAdminRole,
          Step.createRoleBinding SubmarinerBrokerAdminSA submarinerBrokerAdminRole],
          none)

/-- `createBrokerClusterRoleAndDefaultSA`: default cluster service
account, cluster role (create-or-update, ignoring "already exists"), and
the default role binding. -/
def createBrokerClusterRoleAndDefaultSA (c : Client) (ns : String) :
    List Step × Option KError :=
  match stepErr "error creating the default broker service account"
      (c.createSA ns submarinerBrokerClusterDefaultSA) with
  | some e => ([Step.createSA submarinerBrokerClusterDefaultSA], some e)
  | none =>
    match stepErr "error creating broker role"
        (c.createOrUpdateRole ns submarinerBrokerClusterRole) with
    | some e =>
      ([Step.createSA submarinerBrokerClusterDefaultSA,
        Step.createOrUpdateRole submarinerBrokerClusterRole],
        some e)
    | none =>
      match stepErr "error creating the broker rolebinding"
          (c.createRoleBinding ns submarinerBrokerClusterDefaultSA
            submarinerBrokerClusterRole) with
      | some e =>
        ([Step.createSA submarinerBrokerClusterDefaultSA,
          Step.createOrUpdateRole submarinerBrokerClusterRole,
          Step.createRoleBinding submarinerBrokerClusterDefaultSA
            submarinerBrokerClusterRole],
          some e)
      | none =>
        ([Step.createSA submarinerBrokerClusterDefaultSA,
          Step.createOrUpdateRole submarinerBrokerClusterRole,
          Step.createRoleBinding submarinerBrokerClusterDefaultSA
            submarinerBrokerClusterRole],
          none)

/-- The `if crds` guard wrapped around the dispatch loop of `Ensure`:
when `crds` is false the loop body never runs. -/
def schemaPhase (c : Client) (componentArr : List String) (crds : Bool) :
    List Step × Option KError :=
  if crds then ensureComponents c componentArr else ([], none)

/-- `Ensure`: optional capability schema setup, namespace creation
(ignore "already exists"), administrator identity/role/binding, default
cluster identity/role/binding, then the wait for the administrator
token.  Each step aborts the sequence on a non-absorbed error. -/
def Ensure (c : Client) (componentArr : List String) (crds : Bool)
    (ns : String) : List Step × Option KError :=
  match (schemaPhase c componentArr crds).2 with
  | some e => ((schemaPhase c componentArr crds).1, some e)
  | none =>
    match stepErr "error creating the broker namespace" (c.createNamespace ns) with
    | some e =>
      ((schemaPhase c componentArr crds).1 ++ [Step.createNamespace ns], some e)
    | none =>
      match (createBrokerAdministratorRoleAndSA c ns).2 with
      | some e =>
        ((schemaPhase c componentArr crds).1 ++ [Step.createNamespace ns] ++
          (createBrokerAdministratorRoleAndSA c ns).1, some e)
      | none =>
        match (createBrokerClusterRoleAndDefaultSA c ns).2 with
        | some e =>
          ((schemaPhase c componentArr crds).1 ++ [Step.createNamespace ns] ++
            (createBrokerAdministratorRoleAndSA c ns).1 ++
            (createBrokerClusterRoleAndDefaultSA c ns).1, some e)
        | none =>
          ((schemaPhase c componentArr crds).1 ++ [Step.createNamespace ns] ++
            (createBrokerAdministratorRoleAndSA c ns).1 ++
            (createBrokerClusterRoleAndDefaultSA c ns).1 ++
            [Step.waitForToken SubmarinerBrokerAdminSA],
            (WaitForClientToken c SubmarinerBrokerAdminSA ns).err)

/-- `CreateSAForCluster`: derive the per-cluster identity name, create
the service account and its binding to the cluster role (each ignoring
"already exists"), then wait for its token; an "already exists" error
from the wait is also absorbed, the token (possibly nil) being returned
with a nil error. -/
def CreateSAForCluster (c : Client) (clusterID ns : String) :
    List Step × Option Secret × Option KError :=
  match stepErr "error creating cluster sa"
      (c.createSA ns (ClusterSAName clusterID)) with
  | some e => ([Step.createSA (ClusterSAName clusterID)], none, some e)
  | none =>
    match stepErr "error binding sa to cluster role"
        (c.createRoleBinding ns (ClusterSAName clusterID)
          submarinerBrokerClusterRole) with
    | some e =>
      ([Step.createSA (ClusterSAName clusterID),
        Step.createRoleBinding (ClusterSAName clusterID)
          submarinerBrokerClusterRole],
        none, some e)
    | none =>
      match (WaitForClientToken c (ClusterSAName clusterID) ns).err with
      | some e =>
        if e.isAlreadyExists then
          ([Step.createSA (ClusterSAName clusterID),
            Step.createRoleBinding (ClusterSAName clusterID)
              submarinerBrokerClusterRole,
            Step.waitForToken (ClusterSAName clusterID)],
            (WaitForClientToken c (ClusterSAName clusterID) ns).secret, none)
        else
          ([Step.createSA (ClusterSAName clusterID),
            Step.createRoleBinding (ClusterSAName clusterID)
              submarinerBrokerClusterRole,
            Step.waitForToken (ClusterSAName clusterID)],
            none, some (.wrapped "error getting cluster sa token" e))
      | none =>
        ([Step.createSA (ClusterSAName clusterID),
          Step.createRoleBinding (ClusterSAName clusterID)
            submarinerBrokerClusterRole,
          Step.waitForToken (ClusterSAName clusterID)],
          (WaitForClientToken c (ClusterSAName clusterID) ns).secret, none)

/-! Timing model of the `wait.Backoff` configured in `WaitForClientToken`
(`Steps: 10, Duration: 5 * time.Second, Factor: 1.2, Jitter: 1`) under
`wait.ExponentialBackoff` semantics: on each failed attempt except the
last, `Backoff.Step()` returns the current duration inflated by jitter —
`d + rand.Float64()*Jitter*d` — and the caller sleeps for it, after which
the stored duration is multiplied by the factor.  Durations are rational
numbers of seconds; `jit i` stands for the value `rand.Float64()*Jitter`
drawn before the `i`-th sleep, so `0 ≤ jit i < backoffJitter`. -/

/-- `Steps: 10` of the configured `wait.Backoff`. -/
def backoffSteps : Nat := 10

/-- `Duration: 5 * time.Second`, in seconds. -/
def backoffDuration : ℚ := 5

/-- `Factor: 1.2`. -/
def backoffFactor : ℚ := 6 / 5

/-- `Jitter: 1`. -/
def backoffJitter : ℚ := 1

/-- The un-jittered duration of the `i`-th sleep. -/
def baseSleepDuration (i : Nat) : ℚ := backoffDuration * backoffFactor ^ i

/-- The actual duration of the `i`-th sleep after jitter inflation. -/
def jitteredSleep (jit : Nat → ℚ) (i : Nat) : ℚ :=
  baseSleepDuration i + jit i * baseSleepDuration i

/-- `ExponentialBackoff` does not sleep after the final attempt, so a run
that exhausts all attempts sleeps `Steps - 1` times. -/
def sleepsWhenExhausted : Nat := backoffSteps - 1

/-- Total time slept across the first `numSleeps` sleeps. -/
def totalSleepTime (jit : Nat → ℚ) (numSleeps : Nat) : ℚ :=
  ∑ i in Finset.range numSleeps, jitteredSleep jit i

/-- The bound documented in the comment above `WaitForClientToken`:
`sum(n=0..9, 1.2^n * 5)` seconds, about 130 seconds. -/
def documentedBackoffSum : ℚ :=
  ∑ i in Finset.range 10, 5 * (6 / 5 : ℚ) ^ i

/-- Scans a trace and checks that every `waitForToken sa` step is
preceded (strictly earlier in the trace) by a `createSA sa` step. -/
def waitsPrecededAux (seen : List Step) : List Step → Bool
  | [] => true
  | Step.waitForToken sa :: rest =>
    decide (Step.createSA sa ∈ seen) &&
      waitsPrecededAux (seen ++ [Step.waitForToken sa]) rest
  | s :: rest => waitsPrecededAux (seen ++ [s]) rest

/-- Every token wait in the trace happens after the create request for
the same service account. -/
def waitsPreceded (tr : List Step) : Bool := waitsPrecededAux [] tr

/-- Recognizes the schema-installation steps of a trace. -/
def Step.isSchemaInstall : Step → Bool
  | .schemaInstall _ => true
  | _ => false

/-- The outcome of a create request on a re-run: either it succeeds or
the control plane reports "already exists". -/
def okOrExists (r : Option KError) : Prop :=
  r = none ∨ r = some .alreadyExists

/-- The jitter sequence in which `rand.Float64()` draws 0.5 before every
sleep — a legal draw, since `Jitter: 1` scales each sleep by a factor in
`[1, 2)`. -/
def halfJitter : Nat → ℚ := fun _ => 1 / 2

/-! ### Concrete control planes used to instantiate the theorems -/

/-- A control plane on which the admin token materializes on the third
lookup attempt. -/
def slowTokenClient : Client where
  createNamespace := fun _ => none
  createSA := fun _ _ => none
  createOrUpdateRole := fun _ _ => none
  createRoleBinding := fun _ _ _ => none
  getSecret := fun _ _ i =>
    if i < 2 then .error .notFound else .ok ⟨"token-data"⟩
  gatewayEnsure := none
  lighthouseEnsure := none

/-- A control plane on which every resource already exists and tokens
are ready: the state seen by a second, identical invocation. -/
def provisionedClient : Client where
  createNamespace := fun _ => some .alreadyExists
  createSA := fun _ _ => some .alreadyExists
  createOrUpdateRole := fun _ _ => none
  createRoleBinding := fun _ _ _ => some .alreadyExists
  getSecret := fun _ _ _ => .ok ⟨"token-data"⟩
  gatewayEnsure := none
  lighthouseEnsure := none

/-- A control plane whose role create-or-update requests all fail with a
fatal (non-"already exists") error. -/
def roleFailClient : Client where
  createNamespace := fun _ => none
  createSA := fun _ _ => none
  createOrUpdateRole := fun _ _ => some (.other "boom")
  createRoleBinding := fun _ _ _ => none
  getSecret := fun _ _ _ => .error .notFound
  gatewayEnsure := none
  lighthouseEnsure := none

/-- A control plane on which both roles already exist and the
create-or-update requests report "already exists". -/
def roleExistsClient : Client where
  createNamespace := fun _ => none
  createSA := fun _ _ => none
  createOrUpdateRole := fun _ _ => some .alreadyExists
  createRoleBinding := fun _ _ _ => none
  getSecret := fun _ _ _ => .error .notFound
  gatewayEnsure := none
  lighthouseEnsure := none

/-- A control plane whose credential lookup always fails with an
"already exists" error. -/
def tokenExistsErrClient : Client where
  createNamespace := fun _ => none
  createSA := fun _ _ => none
  createOrUpdateRole := fun _ _ => none
  createRoleBinding := fun _ _ _ => none
  getSecret := fun _ _ _ => .error .alreadyExists
  gatewayEnsure := none
  lighthouseEnsure := none

/-- A control plane whose schema installers all fail. -/
def schemaFailClient : Client where
  createNamespace := fun _ => none
  createSA := fun _ _ => none
  createOrUpdateRole := fun _ _ => none
  createRoleBinding := fun _ _ _ => none
  getSecret := fun _ _ _ => .error .notFound
  gatewayEnsure := some (.other "schema failure")
  lighthouseEnsure := some (.other "schema failure")

/-! ### Properties of the retry loop -/

/-- If every attempt in the window fails, the loop exhausts its fuel and
reports the error of the last attempt, with no secret. -/
theorem waitLoop_exhausted (lookup : Nat → Except KError Secret)
    (es : Nat → KError) :
    ∀ fuel idx lastErr,
      (∀ i, i ≤ fuel → lookup (idx + i) = .error (es (idx + i))) →
      waitLoop lookup (fuel + 1) idx lastErr =
        ⟨none, some (es (idx + fuel)), fuel + 1⟩ := by
  intro fuel
  induction fuel with
  | zero =>
    intro idx lastErr h
    have h0 := h 0 (Nat.le_refl 0)
    simp only [Nat.add_zero] at h0
    simp [waitLoop, h0]
  | succ n ih =>
    intro idx lastErr h
    have h0 := h 0 (Nat.zero_le _)
    simp only [Nat.add_zero] at h0
    have hrec := ih (idx + 1) (some (es idx)) (fun i hi => by
      have := h (i + 1) (Nat.succ_le_succ hi)
      simpa [Nat.add_assoc, Nat.add_comm 1 i] using this)
    have step : waitLoop lookup (n + 1 + 1) idx lastErr =
        ⟨(waitLoop lookup (n + 1) (idx + 1) (some (es idx))).secret,
          (waitLoop lookup (n + 1) (idx + 1) (some (es idx))).err,
          (waitLoop lookup (n + 1) (idx + 1) (some (es idx))).attempts + 1⟩ := by
      rw [waitLoop, h0]
    rw [step, hrec]
    have harith : idx + 1 + n = idx + (n + 1) := by omega
    rw [harith]

/-- If the first `k` attempts fail and attempt `k` succeeds within the
fuel budget, the loop stops right there with the observed secret, a nil
error, and exactly `k + 1` attempts made. -/
theorem waitLoop_succeeds (lookup : Nat → Except KError Secret)
    (s : Secret) :
    ∀ k fuel idx lastErr, k < fuel →
      (∀ i, i < k → ∃ e, lookup (idx + i) = .error e) →
      lookup (idx + k) = .ok s →
      waitLoop lookup fuel idx lastErr = ⟨some s, none, k + 1⟩ := by
  intro k
  induction k with
  | zero =>
    intro fuel idx lastErr hk _ hok
    match fuel, hk with
    | fuel + 1, _ =>
      simp only [Nat.add_zero] at hok
      simp [waitLoop, hok]
  | succ n ih =>
    intro fuel idx lastErr hk hfail hok
    match fuel, hk with
    | fuel + 1, hk =>
      obtain ⟨e0, he0⟩ := hfail 0 (Nat.succ_pos n)
      simp only [Nat.add_zero] at he0
      have hrec := ih fuel (idx + 1) (some e0) (Nat.lt_of_succ_lt_succ hk)
        (fun i hi => by
          obtain ⟨e, he⟩ := hfail (i + 1) (Nat.succ_lt_succ hi)
          exact ⟨e, by simpa [Nat.add_assoc, Nat.add_comm 1 i] using he⟩)
        (by simpa [Nat.add_assoc, Nat.add_comm 1 n] using hok)
      simp [waitLoop, he0, hrec]

/-- C1: if the credential lookup succeeds on attempt `k < 10`, that
attempt's secret is returned at once with a nil error and no further
attempts; if all 10 attempts fail, `WaitForClientToken` surfaces the
error observed on the last attempt (attempt 9), not a generic timeout
value, with no secret. -/
theorem waitForClientToken_first_success_or_last_error (c : Client)
    (sa ns : String) (es : Nat → KError) (s : Secret) :
    (∀ k, k < 10 → (∀ i, i < k → ∃ e, c.getSecret ns sa i = .error e) →
      c.getSecret ns sa k = .ok s →
      WaitForClientToken c sa ns = ⟨some s, none, k + 1⟩) ∧
    ((∀ i, i < 10 → c.getSecret ns sa i = .error (es i)) →
      WaitForClientToken c sa ns = ⟨none, some (es 9), 10⟩) := by
  constructor
  · intro k hk hfail hok
    exact waitLoop_succeeds (c.getSecret ns sa) s k 10 0 none hk
      (fun i hi => by simpa using hfail i hi) (by simpa using hok)
  · intro h
    have := waitLoop_exhausted (c.getSecret ns sa) es 9 0 none
      (fun i hi => by simpa using h i (by omega))
    simpa [WaitForClientToken] using this

/-- Witness for C1: on `slowTokenClient` the first two lookups fail and
the third succeeds, so the wait returns that secret after exactly three
attempts. -/
theorem waitForClientToken_first_success_or_last_error_witness :
    WaitForClientToken slowTokenClient "sa" "broker-ns" =
      ⟨some ⟨"token-data"⟩, none, 3⟩ :=
  (waitForClientToken_first_success_or_last_error slowTokenClient "sa"
      "broker-ns" (fun _ => .notFound) ⟨"token-data"⟩).1 2 (by decide)
    (fun i hi => ⟨.notFound, by interval_cases i <;> rfl⟩) rfl

/-! ### The per-cluster identity name -/

/-- C7: `ClusterSAName` is pure and deterministic — distinct cluster
identifiers derive distinct identity names, and the same identifier
always derives the same name. -/
theorem clusterSAName_deterministic_injective :
    (∀ a b : String, a ≠ b → ClusterSAName a ≠ ClusterSAName b) ∧
    (∀ a : String, ClusterSAName a = ClusterSAName a) := by
  refine ⟨fun a b hne h => hne ?_, fun _ => rfl⟩
  have h2 : ("cluster-" ++ a).data = ("cluster-" ++ b).data :=
    congrArg String.data h
  simp only [String.data_append] at h2
  exact String.ext (List.append_cancel_left h2)

/-- Witness for C7 at two concrete distinct cluster identifiers. -/
theorem clusterSAName_deterministic_injective_witness :
    ClusterSAName "east" ≠ ClusterSAName "west" :=
  clusterSAName_deterministic_injective.1 "east" "west" (by decide)

/-! ### Idempotency of the create steps -/

/-- The plain-create guard absorbs both success and "already exists". -/
theorem stepErr_eq_none (msg : String) (r : Option KError)
    (h : okOrExists r) : stepErr msg r = none := by
  rcases h with h | h <;> simp [h, stepErr, KError.isAlreadyExists]

/-- When its three requests succeed or report "already exists" (the
role create-or-update succeeding outright), the administrator phase
issues all three requests and returns nil. -/
theorem createBrokerAdministratorRoleAndSA_ok (c : Client) (ns : String)
    (h1 : okOrExists (c.createSA ns SubmarinerBrokerAdminSA))
    (h2 : c.createOrUpdateRole ns submarinerBrokerAdminRole = none)
    (h3 : okOrExists (c.createRoleBinding ns SubmarinerBrokerAdminSA
      submarinerBrokerAdminRole)) :
    createBrokerAdministratorRoleAndSA c ns =
      ([Step.createSA SubmarinerBrokerAdminSA,
        Step.createOrUpdateRole submarinerBrokerAdminRole,
        Step.createRoleBinding SubmarinerBrokerAdminSA
          submarinerBrokerAdminRole], none) := by
  simp [createBrokerAdministratorRoleAndSA, stepErr_eq_none _ _ h1, h2,
    stepErr_eq_none _ _ h3]

/-- When its three requests succeed or report "already exists" (here the
cluster role create-or-update may report "already exists" too), the
default-cluster phase issues all three requests and returns nil. -/
theorem createBrokerClusterRoleAndDefaultSA_ok (c : Client) (ns : String)
    (h1 : okOrExists (c.createSA ns submarinerBrokerClusterDefaultSA))
    (h2 : okOrExists (c.createOrUpdateRole ns submarinerBrokerClusterRole))
    (h3 : okOrExists (c.createRoleBinding ns submarinerBrokerClusterDefaultSA
      submarinerBrokerClusterRole)) :
    createBrokerClusterRoleAndDefaultSA c ns =
      ([Step.createSA submarinerBrokerClusterDefaultSA,
        Step.createOrUpdateRole submarinerBrokerClusterRole,
        Step.createRoleBinding submarinerBrokerClusterDefaultSA
          submarinerBrokerClusterRole], none) := by
  simp [createBrokerClusterRoleAndDefaultSA, stepErr_eq_none _ _ h1,
    stepErr_eq_none _ _ h2, stepErr_eq_none _ _ h3]

/-- C2: every plain create performed by `Ensure` and
`CreateSAForCluster` (namespace, service accounts, role bindings)
absorbs "already exists", so a run on which each such request either
succeeds or reports "already exists" — in particular a second run with
identical arguments — returns success for both entry points. -/
theorem ensure_createSAForCluster_idempotent (c : Client)
    (ns clusterID : String) (s s' : Secret)
    (hns : okOrExists (c.createNamespace ns))
    (hsaA : okOrExists (c.createSA ns SubmarinerBrokerAdminSA))
    (hroleA : c.createOrUpdateRole ns submarinerBrokerAdminRole = none)
    (hrbA : okOrExists (c.createRoleBinding ns SubmarinerBrokerAdminSA
      submarinerBrokerAdminRole))
    (hsaD : okOrExists (c.createSA ns submarinerBrokerClusterDefaultSA))
    (hroleC : okOrExists (c.createOrUpdateRole ns submarinerBrokerClusterRole))
    (hrbD : okOrExists (c.createRoleBinding ns submarinerBrokerClusterDefaultSA
      submarinerBrokerClusterRole))
    (hsaC : okOrExists (c.createSA ns (ClusterSAName clusterID)))
    (hrbC : okOrExists (c.createRoleBinding ns (ClusterSAName clusterID)
      submarinerBrokerClusterRole))
    (htokA : c.getSecret ns SubmarinerBrokerAdminSA 0 = .ok s)
    (htokC : c.getSecret ns (ClusterSAName clusterID) 0 = .ok s') :
    (Ensure c [] false ns).2 = none ∧
    (CreateSAForCluster c clusterID ns).2.2 = none := by
  have hwA : WaitForClientToken c SubmarinerBrokerAdminSA ns =
      ⟨some s, none, 1⟩ :=
    waitLoop_succeeds _ s 0 10 0 none (by omega)
      (fun i hi => absurd hi (Nat.not_lt_zero i)) (by simpa using htokA)
  have hwC : WaitForClientToken c (ClusterSAName clusterID) ns =
      ⟨some s', none, 1⟩ :=
    waitLoop_succeeds _ s' 0 10 0 none (by omega)
      (fun i hi => absurd hi (Nat.not_lt_zero i)) (by simpa using htokC)
  constructor
  · simp [Ensure, schemaPhase, stepErr_eq_none _ _ hns,
      createBrokerAdministratorRoleAndSA_ok c ns hsaA hroleA hrbA,
      createBrokerClusterRoleAndDefaultSA_ok c ns hsaD hroleC hrbD, hwA]
  · simp [CreateSAForCluster, stepErr_eq_none _ _ hsaC,
      stepErr_eq_none _ _ hrbC, hwC]

/-- Witness for C2: re-running both entry points against the fully
provisioned control plane succeeds. -/
theorem ensure_createSAForCluster_idempotent_witness :
    (Ensure provisionedClient [] false "broker-ns").2 = none ∧
    (CreateSAForCluster provisionedClient "cluster-a" "broker-ns").2.2 =
      none :=
  ensure_createSAForCluster_idempotent provisionedClient "broker-ns"
    "cluster-a" ⟨"token-data"⟩ ⟨"token-data"⟩ (Or.inr rfl) (Or.inr rfl) rfl
    (Or.inr rfl) (Or.inr rfl) (Or.inl rfl) (Or.inr rfl) (Or.inr rfl)
    (Or.inr rfl) rfl rfl

/-! ### Abort on administrator role failure -/

/-- C3: when the administrator role create-or-update fails with an error
that is not "already exists" (earlier steps having gone through),
`Ensure` returns that error wrapped and its trace stops right there: the
administrator role binding, the default cluster identity phase and the
token wait are never requested, and no request ever deletes the
namespace or identity created beforehand (the trace consists of exactly
the three create requests already issued). -/
theorem ensure_aborts_on_admin_role_failure (c : Client) (ns : String)
    (e : KError)
    (hns : okOrExists (c.createNamespace ns))
    (hsaA : okOrExists (c.createSA ns SubmarinerBrokerAdminSA))
    (hrole : c.createOrUpdateRole ns submarinerBrokerAdminRole = some e)
    (_hne : e.isAlreadyExists = false) :
    Ensure c [] false ns =
      ([Step.createNamespace ns, Step.createSA SubmarinerBrokerAdminSA,
        Step.createOrUpdateRole submarinerBrokerAdminRole],
        some (.wrapped "error creating subctl role" e)) := by
  have hadmin : createBrokerAdministratorRoleAndSA c ns =
      ([Step.createSA SubmarinerBrokerAdminSA,
        Step.createOrUpdateRole submarinerBrokerAdminRole],
        some (.wrapped "error creating subctl role" e)) := by
    simp [createBrokerAdministratorRoleAndSA, stepErr_eq_none _ _ hsaA, hrole]
  simp [Ensure, schemaPhase, stepErr_eq_none _ _ hns, hadmin]

/-- Witness for C3: against `roleFailClient`, `Ensure` stops after the
three requests and surfaces the wrapped admin role error. -/
theorem ensure_aborts_on_admin_role_failure_witness :
    Ensure roleFailClient [] false "broker-ns" =
      ([Step.createNamespace "broker-ns",
        Step.createSA SubmarinerBrokerAdminSA,
        Step.createOrUpdateRole submarinerBrokerAdminRole],
        some (.wrapped "error creating subctl role" (.other "boom"))) :=
  ensure_aborts_on_admin_role_failure roleFailClient "broker-ns"
    (.other "boom") (Or.inl rfl) (Or.inl rfl) rfl rfl

/-! ### The asymmetric role create-or-update guards -/

/-- C10: an "already exists" error from the cluster role
create-or-update is absorbed by `createBrokerClusterRoleAndDefaultSA`,
which carries on and returns nil, whereas `createBrokerAdministratorRoleAndSA`
propagates every non-nil admin role create-or-update error — including
"already exists" — wrapped, aborting its sequence before the binding. -/
theorem role_already_exists_asymmetry (c : Client) (ns : String) (e : KError)
    (hsaD : okOrExists (c.createSA ns submarinerBrokerClusterDefaultSA))
    (hroleC : c.createOrUpdateRole ns submarinerBrokerClusterRole =
      some .alreadyExists)
    (hrbD : okOrExists (c.createRoleBinding ns submarinerBrokerClusterDefaultSA
      submarinerBrokerClusterRole))
    (hsaA : okOrExists (c.createSA ns SubmarinerBrokerAdminSA))
    (hroleA : c.createOrUpdateRole ns submarinerBrokerAdminRole = some e) :
    (createBrokerClusterRoleAndDefaultSA c ns).2 = none ∧
    createBrokerAdministratorRoleAndSA c ns =
      ([Step.createSA SubmarinerBrokerAdminSA,
        Step.createOrUpdateRole submarinerBrokerAdminRole],
        some (.wrapped "error creating subctl role" e)) := by
  constructor
  · simp [createBrokerClusterRoleAndDefaultSA, stepErr_eq_none _ _ hsaD,
      stepErr_eq_none _ _ (Or.inr hroleC), stepErr_eq_none _ _ hrbD]
  · simp [createBrokerAdministratorRoleAndSA, stepErr_eq_none _ _ hsaA, hroleA]

/-- Witness for C10 on `roleExistsClient`: the cluster phase succeeds
while the administrator phase aborts on the same "already exists". -/
theorem role_already_exists_asymmetry_witness :
    (createBrokerClusterRoleAndDefaultSA roleExistsClient "broker-ns").2 =
      none ∧
    createBrokerAdministratorRoleAndSA roleExistsClient "broker-ns" =
      ([Step.createSA SubmarinerBrokerAdminSA,
        Step.createOrUpdateRole submarinerBrokerAdminRole],
        some (.wrapped "error creating subctl role" .alreadyExists)) :=
  role_already_exists_asymmetry roleExistsClient "broker-ns" .alreadyExists
    (Or.inl rfl) rfl (Or.inl rfl) (Or.inl rfl) rfl

/-! ### The (nil, nil) return of CreateSAForCluster -/

/-- C9: when the token wait fails with an "already exists" error (its
lookups all reporting "already exists"), `CreateSAForCluster` absorbs it
and returns a nil secret together with a nil error — its caller receives
`(nil, nil)`. -/
theorem createSAForCluster_nil_nil (c : Client) (clusterID ns : String)
    (hsa : okOrExists (c.createSA ns (ClusterSAName clusterID)))
    (hrb : okOrExists (c.createRoleBinding ns (ClusterSAName clusterID)
      submarinerBrokerClusterRole))
    (htok : ∀ i, i ≤ 9 →
      c.getSecret ns (ClusterSAName clusterID) i = .error .alreadyExists) :
    (CreateSAForCluster c clusterID ns).2.1 = none ∧
    (CreateSAForCluster c clusterID ns).2.2 = none := by
  have hw : WaitForClientToken c (ClusterSAName clusterID) ns =
      ⟨none, some .alreadyExists, 10⟩ := by
    have := waitLoop_exhausted (c.getSecret ns (ClusterSAName clusterID))
      (fun _ => .alreadyExists) 9 0 none (fun i hi => by simpa using htok i hi)
    simpa [WaitForClientToken] using this
  constructor <;>
    simp [CreateSAForCluster, stepErr_eq_none _ _ hsa,
      stepErr_eq_none _ _ hrb, hw, KError.isAlreadyExists]

/-- Witness for C9: on `tokenExistsErrClient` the caller gets neither a
credential nor an error. -/
theorem createSAForCluster_nil_nil_witness :
    (CreateSAForCluster tokenExistsErrClient "cluster-a" "broker-ns").2.1 =
      none ∧
    (CreateSAForCluster tokenExistsErrClient "cluster-a" "broker-ns").2.2 =
      none :=
  createSAForCluster_nil_nil tokenExistsErrClient "cluster-a" "broker-ns"
    (Or.inl rfl) (Or.inl rfl) (fun _ _ => rfl)

/-! ### Capability dispatch -/

/-- A tag matching none of the three `case`s falls through the `switch`
without any effect. -/
theorem ensureComponents_skip (c : Client) (tag : String)
    (rest : List String) (h1 : tag ≠ Connectivity)
    (h2 : tag ≠ ServiceDiscovery) (h3 : tag ≠ Globalnet) :
    ensureComponents c (tag :: rest) = ensureComponents c rest := by
  simp [ensureComponents, h1, h2, h3]

/-- C5: an unrecognized component tag is silently skipped by `Ensure` —
no schema installation, no error, the run identical to one without the
tag — while a failing schema installation for a recognized tag aborts
`Ensure` with a wrapped error naming that capability's requirements. -/
theorem ensure_dispatch_skip_and_wrap (c : Client) (rest : List String)
    (tag ns : String) (e : KError)
    (htag : tag ≠ Connectivity ∧ tag ≠ ServiceDiscovery ∧ tag ≠ Globalnet)
    (hga : c.gatewayEnsure = some e) (hlh : c.lighthouseEnsure = some e) :
    Ensure c (tag :: rest) true ns = Ensure c rest true ns ∧
    Ensure c [Connectivity] true ns = ([Step.schemaInstall Connectivity],
      some (.wrapped "error setting up the connectivity requirements" e)) ∧
    Ensure c [ServiceDiscovery] true ns =
      ([Step.schemaInstall ServiceDiscovery],
      some (.wrapped "error setting up the service discovery requirements" e)) ∧
    Ensure c [Globalnet] true ns = ([Step.schemaInstall Globalnet],
      some (.wrapped "error setting up the globalnet requirements" e)) := by
  obtain ⟨h1, h2, h3⟩ := htag
  refine ⟨?_, ?_, ?_, ?_⟩
  · simp only [Ensure, schemaPhase, if_true,
      ensureComponents_skip c tag rest h1 h2 h3]
  · simp [Ensure, schemaPhase, ensureComponents, hga, Connectivity,
      ServiceDiscovery, Globalnet]
  · simp [Ensure, schemaPhase, ensureComponents, hlh, Connectivity,
      ServiceDiscovery, Globalnet]
  · simp [Ensure, schemaPhase, ensureComponents, hlh, Connectivity,
      ServiceDiscovery, Globalnet]

/-- Witness for C5: the tag `"unknown"` is skipped and each recognized
tag's failing installation aborts with its own wrapped error. -/
theorem ensure_dispatch_skip_and_wrap_witness :
    Ensure schemaFailClient ["unknown"] true "broker-ns" =
      Ensure schemaFailClient [] true "broker-ns" ∧
    Ensure schemaFailClient [Connectivity] true "broker-ns" =
      ([Step.schemaInstall Connectivity],
      some (.wrapped "error setting up the connectivity requirements"
        (.other "schema failure"))) ∧
    Ensure schemaFailClient [ServiceDiscovery] true "broker-ns" =
      ([Step.schemaInstall ServiceDiscovery],
      some (.wrapped "error setting up the service discovery requirements"
        (.other "schema failure"))) ∧
    Ensure schemaFailClient [Globalnet] true "broker-ns" =
      ([Step.schemaInstall Globalnet],
      some (.wrapped "error setting up the globalnet requirements"
        (.other "schema failure"))) :=
  ensure_dispatch_skip_and_wrap schemaFailClient [] "unknown" "broker-ns"
    (.other "schema failure") ⟨by decide, by decide, by decide⟩ rfl rfl

/-! ### The crds flag -/

/-- The administrator phase never issues a schema installation. -/
theorem admin_trace_no_schema (c : Client) (ns : String) :
    ((createBrokerAdministratorRoleAndSA c ns).1.all
      fun s => ! s.isSchemaInstall) = true := by
  unfold createBrokerAdministratorRoleAndSA
  repeat' split
  all_goals simp [Step.isSchemaInstall]

/-- The default-cluster phase never issues a schema installation. -/
theorem cluster_trace_no_schema (c : Client) (ns : String) :
    ((createBrokerClusterRoleAndDefaultSA c ns).1.all
      fun s => ! s.isSchemaInstall) = true := by
  unfold createBrokerClusterRoleAndDefaultSA
  repeat' split
  all_goals simp [Step.isSchemaInstall]

/-- C6: with the schema-setup flag false, `Ensure` runs exactly as with
an empty component list — no schema-prerequisite installation happens
for any tag, its trace holds no schema step, and the rest of the
sequence is unchanged. -/
theorem ensure_no_crds_skips_schema (c : Client) (comps : List String)
    (ns : String) :
    Ensure c comps false ns = Ensure c [] false ns ∧
    ((Ensure c comps false ns).1.all fun s => ! s.isSchemaInstall) = true := by
  constructor
  · rfl
  · have ha := admin_trace_no_schema c ns
    have hc := cluster_trace_no_schema c ns
    unfold Ensure
    repeat' split
    all_goals
      simp_all [schemaPhase, List.all_append, Step.isSchemaInstall]

/-! ### Token waits come after the identity create request -/

/-- Scanning a concatenation: the left part is checked against the seen
prefix, the right part against the prefix extended by the left part. -/
theorem waitsPrecededAux_append (l₁ l₂ : List Step) :
    ∀ seen, waitsPrecededAux seen (l₁ ++ l₂) =
      (waitsPrecededAux seen l₁ && waitsPrecededAux (seen ++ l₁) l₂) := by
  induction l₁ with
  | nil => intro seen; simp [waitsPrecededAux]
  | cons s rest ih =>
    intro seen
    cases s <;>
      simp [waitsPrecededAux, ih, List.append_assoc, List.singleton_append,
        Bool.and_assoc]

/-- The dispatch loop issues only schema installations, so any scan of
its trace passes whatever came before. -/
theorem ensureComponents_waits (c : Client) :
    ∀ comps seen,
      waitsPrecededAux seen (ensureComponents c comps).1 = true := by
  intro comps
  induction comps with
  | nil => intro _; rfl
  | cons tag rest ih =>
    intro seen
    by_cases h1 : tag = Connectivity
    · cases hg : c.gatewayEnsure <;>
        simp [ensureComponents, h1, hg, waitsPrecededAux, ih]
    · by_cases h2 : tag = ServiceDiscovery
      · cases hl : c.lighthouseEnsure <;>
          simp [ensureComponents, h1, h2, hl, waitsPrecededAux, ih]
      · by_cases h3 : tag = Globalnet
        · cases hl : c.lighthouseEnsure <;>
            simp [ensureComponents, h1, h2, h3, hl, waitsPrecededAux, ih]
        · simp [ensureComponents, h1, h2, h3, ih]

/-- The administrator phase issues no token wait. -/
theorem admin_trace_waits (c : Client) (ns : String) (seen : List Step) :
    waitsPrecededAux seen (createBrokerAdministratorRoleAndSA c ns).1 =
      true := by
  unfold createBrokerAdministratorRoleAndSA
  repeat' split
  all_goals simp [waitsPrecededAux]

/-- The default-cluster phase issues no token wait. -/
theorem cluster_trace_waits (c : Client) (ns : String) (seen : List Step) :
    waitsPrecededAux seen (createBrokerClusterRoleAndDefaultSA c ns).1 =
      true := by
  unfold createBrokerClusterRoleAndDefaultSA
  repeat' split
  all_goals simp [waitsPrecededAux]

/-- Whatever the control plane answers, the administrator phase's very
first request is the create of the administrator service account. -/
theorem admin_trace_head (c : Client) (ns : String) :
    ∃ t, (createBrokerAdministratorRoleAndSA c ns).1 =
      Step.createSA SubmarinerBrokerAdminSA :: t := by
  unfold createBrokerAdministratorRoleAndSA
  repeat' split
  all_goals exact ⟨_, rfl⟩

/-- C8: in every execution of `Ensure` and of `CreateSAForCluster`, a
token wait for an identity appears in the request trace only after the
create request for that identity's service account has been issued. -/
theorem token_wait_after_create_request (c : Client) (comps : List String)
    (crds : Bool) (ns clusterID : String) :
    waitsPreceded (Ensure c comps crds ns).1 = true ∧
    waitsPreceded (CreateSAForCluster c clusterID ns).1 = true := by
  have hschema : ∀ seen,
      waitsPrecededAux seen (schemaPhase c comps crds).1 = true := by
    intro seen
    cases crds
    · rfl
    · simpa [schemaPhase] using ensureComponents_waits c comps seen
  constructor
  · unfold waitsPreceded Ensure
    split
    · exact hschema []
    · split
      · simp [waitsPrecededAux_append, waitsPrecededAux, hschema]
      · split
        · simp [waitsPrecededAux_append, waitsPrecededAux, hschema,
            admin_trace_waits]
        · split
          · simp [waitsPrecededAux_append, waitsPrecededAux, hschema,
              admin_trace_waits, cluster_trace_waits]
          · have hmem : Step.createSA SubmarinerBrokerAdminSA ∈
                (createBrokerAdministratorRoleAndSA c ns).1 := by
              obtain ⟨t, ht⟩ := admin_trace_head c ns
              exact ht ▸ List.mem_cons_self _ _
            simp [waitsPrecededAux_append, waitsPrecededAux, hschema,
              admin_trace_waits, cluster_trace_waits, List.mem_append, hmem]
  · unfold waitsPreceded CreateSAForCluster
    split
    · rfl
    · split
      · rfl
      · split
        · split
          · simp [waitsPrecededAux]
          · simp [waitsPrecededAux]
        · simp [waitsPrecededAux]

/-! ### The backoff time bound -/

/-- C4 is refuted by this evaluation: the comment above
`WaitForClientToken` documents a total wait of `sum(n=0..9, 1.2^n * 5)`
≈ 129.8 seconds, but with `Jitter: 1` the jitter draws inflate each
sleep by up to a factor of 2, so a run whose lookups all fail and whose
draws are all 0.5 — each within the allowed range — already sleeps
≈ 156 seconds, exceeding the documented sum.  The total is therefore not
bounded by the documented backoff sum regardless of jitter. -/
theorem totalSleep_exceeds_documentedBackoffSum :
    (∀ i : Nat, 0 ≤ halfJitter i ∧ halfJitter i < backoffJitter) ∧
    documentedBackoffSum < totalSleepTime halfJitter sleepsWhenExhausted ∧
    documentedBackoffSum = 50700551 / 390625 ∧
    totalSleepTime halfJitter sleepsWhenExhausted = 24373713 / 156250 := by
  refine ⟨fun i => by norm_num [halfJitter, backoffJitter], ?_, ?_, ?_⟩ <;>
    norm_num [documentedBackoffSum, totalSleepTime, jitteredSleep,
      baseSleepDuration, backoffDuration, backoffFactor, halfJitter,
      sleepsWhenExhausted, backoffSteps, Finset.sum_range_succ,
      Finset.sum_range_zero]

end Broker
